import Mathlib

/-!
Shallow embedding of the ticketee bot core (src/bot.py): ticket store rows,
the glyph-prefixed external channel naming, the lifecycle handlers
(mark_solved, confirm_close, priority select, admin set_ticket_priority,
reconcile_tickets), the creation pipeline (TicketModal.on_submit) with its
anti-spam gate, the open-ticket-number allocator, and the message logger.
Machine integers are modelled as Nat, sqlite TEXT as String, nullable
columns as Option.
-/

namespace Ticketee

/-- A row of the `tickets` table (src/bot.py init_db). -/
structure Ticket where
  id : Nat
  ticket_number : Nat
  guild_id : Nat
  opener_id : Nat
  channel_id : Option Nat
  category_id : Option Nat
  status : String
  priority : String
  created_at : Nat
  closed_at : Option Nat
  admin_closer_id : Option Nat
  first_message_id : Option Nat
deriving DecidableEq, Repr

/-- A row of the `messages` table. -/
structure MessageRow where
  ticket_id : Nat
  discord_message_id : Option Nat
  author_id : Nat
  content : String
  created_at : Nat
deriving DecidableEq, Repr

/-- The store: the two tables the lifecycle handlers touch. -/
structure DB where
  tickets : List Ticket
  messages : List MessageRow
deriving DecidableEq, Repr

/-- `SELECT * FROM tickets WHERE channel_id = ?` followed by `fetchone()`. -/
def findTicketByChannel (db : DB) (chId : Nat) : Option Ticket :=
  db.tickets.find? (fun t => t.channel_id == some chId)

/-- `SELECT COUNT(1) FROM tickets WHERE guild_id = ? AND status != 'closed'`. -/
def countOpenInGuild (db : DB) (g : Nat) : Nat :=
  (db.tickets.filter (fun t => t.guild_id == g && t.status != "closed")).length

/-- `SELECT COUNT(1) FROM tickets WHERE guild_id = ? AND opener_id = ? AND status != 'closed'`. -/
def countOpenByUser (db : DB) (g u : Nat) : Nat :=
  (db.tickets.filter
    (fun t => t.guild_id == g && t.opener_id == u && t.status != "closed")).length

/-- `UPDATE tickets SET ... WHERE id = ?`, as a per-row conditional map. -/
def updateTicketById (db : DB) (tid : Nat) (f : Ticket → Ticket) : DB :=
  { db with tickets := db.tickets.map (fun t => if t.id == tid then f t else t) }

/-! ## Glyphs and external display names (PriorityController) -/

/-- Python `str.lower()` / `str.casefold()` (they agree on the ASCII
priority labels compared here), structurally on the character list. -/
def pyLower (s : String) : String := String.mk (s.data.map Char.toLower)

/-- The source file's emoji literals are double-encoded: as the
interpreter reads src/bot.py (UTF-8), each "glyph" string literal is a
3-4 character mojibake sequence, not a single emoji. These are the five
sequences, by exact code point. White circle, "âšª". -/
def glyphWhite : List Char := [Char.ofNat 0xE2, Char.ofNat 0x161, Char.ofNat 0xAA]

/-- Yellow circle literal as staged, "ðŸŸ¡". -/
def glyphYellow : List Char :=
  [Char.ofNat 0xF0, Char.ofNat 0x178, Char.ofNat 0x178, Char.ofNat 0xA1]

/-- Orange circle literal as staged (ends in U+00A0). -/
def glyphOrange : List Char :=
  [Char.ofNat 0xF0, Char.ofNat 0x178, Char.ofNat 0x178, Char.ofNat 0xA0]

/-- Red circle literal as staged, "ðŸ”´". -/
def glyphRed : List Char :=
  [Char.ofNat 0xF0, Char.ofNat 0x178, Char.ofNat 0x201D, Char.ofNat 0xB4]

/-- Green circle literal as staged, "ðŸŸ¢". -/
def glyphGreen : List Char :=
  [Char.ofNat 0xF0, Char.ofNat 0x178, Char.ofNat 0x178, Char.ofNat 0xA2]

/-- `priority_emoji` (src/bot.py:367-376): lowercase the priority and
return the matching glyph string — a 3-4 character sequence as staged. -/
def priority_emoji (priority : String) : List Char :=
  let p := pyLower priority
  if p = "low" then glyphWhite
  else if p = "high" then glyphOrange
  else if p = "urgent" then glyphRed
  else glyphYellow

/-- The tuple tested by `base[:1] in (...)` at src/bot.py:514/614/674/1352:
five strings of 3-4 characters each. -/
def knownGlyphs : List (List Char) := [glyphWhite, glyphYellow, glyphOrange, glyphRed, glyphGreen]

/-- `base.startswith(base[:1] + "-")`: the first character trivially
matches itself, so this holds exactly when the second character is `-`
(and is false for names shorter than two characters). -/
def startsWithFirstDash : List Char → Bool
  | _ :: '-' :: _ => true
  | _ => false

/-- `base.split("-", 1)[1]`: everything after the first `-`. The code
only evaluates this under the guard, which guarantees a `-` exists; the
`[]` fallback is unreachable there. -/
def splitOnceAfterDash : List Char → List Char
  | [] => []
  | '-' :: rest => rest
  | _ :: rest => splitOnceAfterDash rest

/-- The strip step applied to a channel name before re-prefixing
(src/bot.py:513-515 and the three copies): when `base[:1]` — a string of
at most one character — is a member of the glyph tuple and is followed
by `-`, drop the prefix. Channel names are modelled as their list of
characters. -/
def stripGlyph (base : List Char) : List Char :=
  if base.take 1 ∈ knownGlyphs ∧ startsWithFirstDash base then
    splitOnceAfterDash base
  else base

/-- The external name computation used by every rename site:
the strip step, then `f"{glyph}-{base}"`. -/
def newChannelName (glyph : List Char) (name : List Char) : List Char :=
  glyph ++ '-' :: stripGlyph name

/-! ## Status ordering -/

/-- Position of a stored status along OPEN → PENDING_CLOSE → CLOSED. -/
def statusRank (s : String) : Nat :=
  if s = "closed" then 2 else if s = "pending_close" then 1 else 0

/-! ## Lifecycle handlers

Each handler is a pure function of the store plus the outcome of the
bounded external edit (`editOk`, the Boolean returned by
`try_edit_channel`, i.e. `False` on timeout / HTTP error / rate limit).
Besides the new store and the interaction response, every handler also
returns the ordered trace of externally-relevant events it performed, so
that "external edit attempted before any store write" is statable. -/

/-- An externally relevant event performed by a handler, in order. -/
inductive Event
  | extEdit (ok : Bool)
  | storeWrite
deriving DecidableEq, Repr

/-- Every store write in the trace is preceded by a successful external
edit: no write may appear before the first `extEdit true`. -/
def writesGated : List Event → Bool
  | [] => true
  | .storeWrite :: _ => false
  | .extEdit true :: _ => true
  | .extEdit false :: rest => writesGated rest

/-- Interaction responses sent back to the caller. -/
inductive Resp
  | notTicket
  | notAllowed
  | alreadyClosed
  | alreadyPriority (p : String)
  | notTextChannel
  | retryLater
  | closedOk
  | priorityUpdated (p : String)
  | solvedOk
  | tooFast
  | limitReached
  | cooldownActive (remaining : Nat)
  | categoryFull
  | rateLimitedCreate
  | ticketCreated
deriving DecidableEq, Repr

/-- `TicketView.mark_solved` (src/bot.py:574-634): fetch the ticket by
channel; only the opener may proceed; `closed` is a no-op; otherwise the
status is set to `pending_close` and committed, and only afterwards the
best-effort name/topic refresh runs (its failure is ignored). -/
def mark_solved (db : DB) (chId userId : Nat) (editOk : Bool) :
    DB × Resp × List Event :=
  match findTicketByChannel db chId with
  | none => (db, .notTicket, [])
  | some t =>
    if t.opener_id != userId then (db, .notAllowed, [])
    else if t.status == "closed" then (db, .alreadyClosed, [])
    else
      (updateTicketById db t.id (fun u => { u with status := "pending_close" }),
       .solvedOk, [.storeWrite, .extEdit editOk])

/-- `TicketView.confirm_close` (src/bot.py:636-726): staff/admin only;
`closed` is a no-op; the overwrite/rename/re-topic edit (or, for a
thread, lock+archive) runs first and the `closed`/`closed_at`/
`admin_closer_id` update is committed only when it reported success;
on failure the caller is told to retry later. -/
def confirm_close (db : DB) (staffOrAdmin : Bool) (chId : Nat)
    (isTextOrThread : Bool) (editOk : Bool) (now actorId : Nat) :
    DB × Resp × List Event :=
  if !staffOrAdmin then (db, .notAllowed, [])
  else
    match findTicketByChannel db chId with
    | none => (db, .notTicket, [])
    | some t =>
      if t.status == "closed" then (db, .alreadyClosed, [])
      else if !isTextOrThread then (db, .notTextChannel, [])
      else if editOk then
        (updateTicketById db t.id (fun u =>
          { u with status := "closed", closed_at := some now,
                   admin_closer_id := some actorId }),
         .closedOk, [.extEdit true, .storeWrite])
      else (db, .retryLater, [.extEdit false])

/-- `PrioritySelect.callback` (src/bot.py:471-560): fetch the ticket by
channel (`SELECT *`); opener or staff/admin only; a case-insensitive
match with the stored priority is a pure no-op; the rename/re-topic edit
runs first and `UPDATE tickets SET priority` is committed only when it
reported success; on failure the caller is told to retry later. -/
def prioritySelectCallback (db : DB) (chId userId : Nat)
    (userIsStaffOrAdmin : Bool) (pr : String) (isTextChannel editOk : Bool) :
    DB × Resp × List Event :=
  match findTicketByChannel db chId with
  | none => (db, .notTicket, [])
  | some t =>
    if !(t.opener_id == userId || userIsStaffOrAdmin) then (db, .notAllowed, [])
    else if pyLower t.priority == pyLower pr then (db, .alreadyPriority pr, [])
    else if !isTextChannel then (db, .notTextChannel, [])
    else if editOk then
      (updateTicketById db t.id (fun u => { u with priority := pr }),
       .priorityUpdated pr, [.extEdit true, .storeWrite])
    else (db, .retryLater, [.extEdit false])

/-! ## The admin `set_ticket_priority` command and sqlite row access

`sqlite3.Row` indexing raises `IndexError: No item with that key` when
the requested column was not in the SELECT list. The admin command's
query is `SELECT id, ticket_number, status, first_message_id FROM
tickets WHERE channel_id = ?` (src/bot.py:1333), and the very next test
reads `t["priority"]`. Row access is therefore modelled as fallible. -/

/-- A sqlite cell value. -/
inductive SqlVal
  | int (n : Nat)
  | text (s : String)
  | null
deriving DecidableEq, Repr

/-- An uncaught Python exception observable at the handler boundary. -/
inductive PyError
  | indexErrorNoItem (key : String)
deriving DecidableEq, Repr

/-- The cell a ticket row holds for a given column name. -/
def ticketColumn (t : Ticket) : String → SqlVal
  | "id" => .int t.id
  | "ticket_number" => .int t.ticket_number
  | "guild_id" => .int t.guild_id
  | "opener_id" => .int t.opener_id
  | "channel_id" => match t.channel_id with | some c => .int c | none => .null
  | "category_id" => match t.category_id with | some c => .int c | none => .null
  | "status" => .text t.status
  | "priority" => .text t.priority
  | "created_at" => .int t.created_at
  | "closed_at" => match t.closed_at with | some c => .int c | none => .null
  | "admin_closer_id" => match t.admin_closer_id with | some c => .int c | none => .null
  | "first_message_id" => match t.first_message_id with | some c => .int c | none => .null
  | _ => .null

/-- `row[key]` on a row produced by a SELECT with column list `cols`. -/
def rowIndex (cols : List String) (t : Ticket) (key : String) :
    Except PyError SqlVal :=
  if key ∈ cols then .ok (ticketColumn t key) else .error (.indexErrorNoItem key)

/-- `(x or "")` for a TEXT cell. -/
def textOrEmpty : SqlVal → String
  | .text s => s
  | _ => ""

/-- The column list of the admin command's ticket query. -/
def setTicketPriorityCols : List String :=
  ["id", "ticket_number", "status", "first_message_id"]

/-- `/admin set_ticket_priority` (src/bot.py:1319-1384): fetch the row
with `setTicketPriorityCols`; read `t["priority"]` for the
case-insensitive no-op check; then (as in the select path) edit the
channel first and persist the priority only on success. -/
def set_ticket_priority (db : DB) (chId : Nat) (pr : String)
    (isTextChannel editOk : Bool) :
    Except PyError (DB × Resp × List Event) :=
  match findTicketByChannel db chId with
  | none => .ok (db, .notTicket, [])
  | some t => do
    let cur ← rowIndex setTicketPriorityCols t "priority"
    if pyLower (textOrEmpty cur) == pyLower pr then
      pure (db, .alreadyPriority pr, [])
    else if !isTextChannel then pure (db, .notTextChannel, [])
    else if editOk then do
      let tid ← rowIndex setTicketPriorityCols t "id"
      match tid with
      | .int i =>
          pure (updateTicketById db i (fun u => { u with priority := pr }),
                .priorityUpdated pr, [.extEdit true, .storeWrite])
      | _ => pure (db, .notTicket, [.extEdit true])
    else pure (db, .retryLater, [.extEdit false])

/-- `reconcile_tickets` body applied to one row (src/bot.py:1390-1426):
rows are those with `guild_id = ? AND status != 'closed'`; a row whose
channel no longer exists (or is not a text channel) is forced closed;
with `close_all` every remaining row is closed too. `chanExists c`
models `guild.get_channel(c)` returning a live `TextChannel`. -/
def channelIsLiveText (chanExists : Nat → Bool) : Option Nat → Bool
  | some c => chanExists c
  | none => false

def reconcileTicket (guild : Nat) (closeAll : Bool) (chanExists : Nat → Bool)
    (now : Nat) (t : Ticket) : Ticket :=
  if t.guild_id == guild && t.status != "closed" then
    if !channelIsLiveText chanExists t.channel_id then
      { t with status := "closed", closed_at := some now }
    else if closeAll then { t with status := "closed", closed_at := some now }
    else t
  else t

/-- `/admin reconcile_tickets` over the whole store. -/
def reconcile_tickets (db : DB) (guild : Nat) (closeAll : Bool)
    (chanExists : Nat → Bool) (now : Nat) : DB :=
  { db with tickets := db.tickets.map (reconcileTicket guild closeAll chanExists now) }

/-! ## Allocator, anti-spam state and the creation pipeline -/

/-- `reserve_open_ticket_number` (src/bot.py:379-394): `BEGIN IMMEDIATE`,
count the guild's non-closed tickets, commit, return count + 1. The
transaction contains no INSERT/UPDATE/DELETE, so the store it hands back
is the store it received. -/
def reserve_open_ticket_number (db : DB) (guildId : Nat) : Nat × DB :=
  (countOpenInGuild db guildId + 1, db)

/-- `_OPEN_GATES`: `(guild, user)` keyed expiry timestamps. -/
abbrev GateMap := List ((Nat × Nat) × Nat)

/-- `_USER_CATEGORY_COOLDOWNS`: `(guild, category, user)` keyed expiries. -/
abbrev CdMap := List ((Nat × Nat × Nat) × Nat)

/-- `dict.get`. -/
def gateGet (m : GateMap) (k : Nat × Nat) : Option Nat :=
  (m.find? (fun e => e.1 == k)).map (·.2)

/-- `dict[k] = v`. -/
def gateSet (m : GateMap) (k : Nat × Nat) (v : Nat) : GateMap :=
  (k, v) :: m.filter (fun e => e.1 != k)

/-- `dict.get`. -/
def cdGet (m : CdMap) (k : Nat × Nat × Nat) : Option Nat :=
  (m.find? (fun e => e.1 == k)).map (·.2)

/-- `dict[k] = v`. -/
def cdSet (m : CdMap) (k : Nat × Nat × Nat) (v : Nat) : CdMap :=
  (k, v) :: m.filter (fun e => e.1 != k)

/-- Startup configuration read from the environment. -/
structure BotCfg where
  gateSeconds : Nat      -- OPEN_TICKET_GATE_SECONDS, default 5
  cooldownSeconds : Nat  -- TICKET_OPEN_COOLDOWN_SECONDS, default 60
  openLimit : Nat        -- OPEN_TICKETS_PER_USER_LIMIT, default 1
deriving Repr

/-- The process state the creation pipeline touches: the store plus the
two in-memory anti-spam maps. -/
structure BotState where
  db : DB
  gates : GateMap
  cooldowns : CdMap
deriving Repr

/-- The gate test of `on_submit` (src/bot.py:816-827): with the gate
enabled, deny when a registered expiry is truthy and still in the
future. -/
def gateDenies (cfg : BotCfg) (gates : GateMap) (k : Nat × Nat) (now : Nat) : Bool :=
  decide (0 < cfg.gateSeconds) &&
    (match gateGet gates k with
     | some exp => exp != 0 && decide (now < exp)
     | none => false)

/-- The per-category cooldown test of `on_submit` (src/bot.py:850-866). -/
def cdDenies (cfg : BotCfg) (cds : CdMap) (k : Nat × Nat × Nat) (now : Nat) : Bool :=
  decide (0 < cfg.cooldownSeconds) &&
    (match cdGet cds k with
     | some exp => exp != 0 && decide (now < exp)
     | none => false)

/-- `TicketModal.on_submit` (src/bot.py:799-1012). In order: the
per-user gate (deny while a registered expiry is still in the future,
re-arm on allow), the per-user open-ticket limit, the per-category
cooldown, the open-queue number reservation, the parent-category-full
bail-out, the external channel creation (`createResult = none` models
`discord.errors.RateLimited`), and only then the ticket INSERT (with the
created channel's id), the first `messages` INSERT, the best-effort
`first_message_id` update, and the cooldown re-arm. -/
def ticketModalOnSubmit (cfg : BotCfg) (st : BotState)
    (guild user category now : Nat) (content : String) (parentFull : Bool)
    (createResult : Option Nat) (freshTicketId : Nat)
    (firstMsgId : Option Nat) : BotState × Resp :=
  let gk := (guild, user)
  if gateDenies cfg st.gates gk now then (st, .tooFast)
  else
    let gates' :=
      if 0 < cfg.gateSeconds then gateSet st.gates gk (now + cfg.gateSeconds)
      else st.gates
    let st := { st with gates := gates' }
    if 0 < cfg.openLimit ∧ cfg.openLimit ≤ countOpenByUser st.db guild user then
      (st, .limitReached)
    else
      let ck := (guild, category, user)
      if cdDenies cfg st.cooldowns ck now then
        (st, .cooldownActive ((cdGet st.cooldowns ck).getD 0 - now))
      else
        let num := (reserve_open_ticket_number st.db guild).1
        if parentFull then (st, .categoryFull)
        else
          match createResult with
          | none => (st, .rateLimitedCreate)
          | some chanRef =>
            let row : Ticket :=
              { id := freshTicketId, ticket_number := num, guild_id := guild,
                opener_id := user, channel_id := some chanRef,
                category_id := some category, status := "open",
                priority := "Low", created_at := now, closed_at := none,
                admin_closer_id := none, first_message_id := none }
            let db := { st.db with tickets := st.db.tickets ++ [row] }
            let firstMsg : MessageRow :=
              { ticket_id := freshTicketId, discord_message_id := none,
                author_id := user, content := content, created_at := now }
            let db := { db with messages := db.messages ++ [firstMsg] }
            let db :=
              match firstMsgId with
              | some m => updateTicketById db freshTicketId
                  (fun u => { u with first_message_id := some m })
              | none => db
            let cooldowns' :=
              if 0 < cfg.cooldownSeconds then
                cdSet st.cooldowns ck (now + cfg.cooldownSeconds)
              else st.cooldowns
            ({ st with db := db, cooldowns := cooldowns' }, .ticketCreated)

/-- `on_message` (src/bot.py:1454-1483): skip bot authors and DMs; look
the channel up in `tickets`; skip when no row matches or the row is
closed; otherwise append the message to the `messages` table. -/
def on_message (db : DB) (authorIsBot inGuild : Bool)
    (chId msgId authorId : Nat) (content : String) (now : Nat) : DB :=
  if authorIsBot then db
  else if !inGuild then db
  else
    match findTicketByChannel db chId with
    | none => db
    | some t =>
      if t.status == "closed" then db
      else
        { db with messages := db.messages ++
            [{ ticket_id := t.id, discord_message_id := some msgId,
               author_id := authorId, content := content, created_at := now }] }

/-! ## Two concurrent creations, step by step

`on_submit` suspends between the number reservation, the (per-guild
serialized) channel creation, and the ticket INSERT; concurrent
submissions interleave at those points. Each pending creation is its own
three-step script; a schedule chooses which of two pending creations
runs its next step. -/

/-- The suspension-separated phases of one creation. -/
inductive CreateStep
  | reserve
  | createChannel
  | insertRow
deriving DecidableEq, Repr

/-- One in-flight creation: its guild/opener and what it has obtained. -/
structure PendingCreate where
  guild : Nat
  opener : Nat
  reserved : Option Nat
  channel : Option Nat
deriving DecidableEq, Repr

/-- Run one phase of one in-flight creation against the store. -/
def createDoStep (db : DB) (p : PendingCreate) (s : CreateStep)
    (freshChan freshId now : Nat) : DB × PendingCreate :=
  match s with
  | .reserve =>
      (db, { p with reserved := some (reserve_open_ticket_number db p.guild).1 })
  | .createChannel => (db, { p with channel := some freshChan })
  | .insertRow =>
      match p.reserved, p.channel with
      | some n, some c =>
          ({ db with tickets := db.tickets ++
              [{ id := freshId, ticket_number := n, guild_id := p.guild,
                 opener_id := p.opener, channel_id := some c,
                 category_id := none, status := "open", priority := "Low",
                 created_at := now, closed_at := none,
                 admin_closer_id := none, first_message_id := none }] }, p)
      | _, _ => (db, p)

/-- The phases of one creation, in program order. -/
def createScript : List CreateStep := [.reserve, .createChannel, .insertRow]

/-- Run a schedule over two in-flight creations A and B: `false` steps A,
`true` steps B; each consumes its remaining script in order. The
per-guild creation lock is respected because `createChannel` is a single
atomic step, so no two creations ever overlap inside it. -/
def runTwoCreatesGo : List Bool → DB → PendingCreate → List CreateStep →
    PendingCreate → List CreateStep → Nat → Nat → Nat → Nat → Nat → DB
  | [], db, _, _, _, _, _, _, _, _, _ => db
  | false :: rest, db, pA, sA, pB, sB, chanA, chanB, idA, idB, now =>
      match sA with
      | [] => runTwoCreatesGo rest db pA [] pB sB chanA chanB idA idB now
      | s :: sA' =>
          let r := createDoStep db pA s chanA idA now
          runTwoCreatesGo rest r.1 r.2 sA' pB sB chanA chanB idA idB now
  | true :: rest, db, pA, sA, pB, sB, chanA, chanB, idA, idB, now =>
      match sB with
      | [] => runTwoCreatesGo rest db pA sA pB [] chanA chanB idA idB now
      | s :: sB' =>
          let r := createDoStep db pB s chanB idB now
          runTwoCreatesGo rest r.1 pA sA r.2 sB' chanA chanB idA idB now

/-- Two concurrent creations in guild 1 by users 10 and 20, from a given
store, under a given schedule. -/
def runTwoCreates (sched : List Bool) (db : DB) : DB :=
  runTwoCreatesGo sched db
    { guild := 1, opener := 10, reserved := none, channel := none } createScript
    { guild := 1, opener := 20, reserved := none, channel := none } createScript
    100 200 1 2 1000

/-- The store an admin-command result leaves behind: the new store on
normal return, the untouched one when the handler raised. -/
def adminResultDB (db : DB) : Except PyError (DB × Resp × List Event) → DB
  | .ok (d, _, _) => d
  | .error _ => db

/-! ## Shared helper lemmas and fixtures -/

/-- A concrete open ticket in channel 100, opened by user 7. -/
def exampleTicket : Ticket :=
  { id := 1, ticket_number := 1, guild_id := 1, opener_id := 7,
    channel_id := some 100, category_id := some 3, status := "open",
    priority := "Low", created_at := 500, closed_at := none,
    admin_closer_id := none, first_message_id := none }

/-- A concrete store holding only `exampleTicket`. -/
def exampleDB : DB := { tickets := [exampleTicket], messages := [] }

/-- The same ticket already closed. -/
def closedTicket : Ticket :=
  { exampleTicket with status := "closed", closed_at := some 900,
                       admin_closer_id := some 42 }

/-- A store holding only `closedTicket`. -/
def closedDB : DB := { tickets := [closedTicket], messages := [] }

/-- The per-row relation of the status state machine: rank never
decreases and a closed row stays closed. -/
def statusStep (t t' : Ticket) : Prop :=
  statusRank t.status ≤ statusRank t'.status ∧
    (t.status = "closed" → t'.status = "closed")

theorem take_one_not_in_knownGlyphs (base : List Char) :
    base.take 1 ∉ knownGlyphs := by
  cases base with
  | nil =>
      simp [knownGlyphs, glyphWhite, glyphYellow, glyphOrange, glyphRed, glyphGreen]
  | cons c rest =>
      simp [knownGlyphs, glyphWhite, glyphYellow, glyphOrange, glyphRed, glyphGreen]

theorem stripGlyph_eq_self (base : List Char) : stripGlyph base = base := by
  unfold stripGlyph
  rw [if_neg]
  intro h
  exact take_one_not_in_knownGlyphs base h.1

theorem statusStep_refl (t : Ticket) : statusStep t t := ⟨le_refl _, fun h => h⟩

theorem forall2_self {P : Ticket → Ticket → Prop} (h : ∀ t, P t t) :
    ∀ l : List Ticket, List.Forall₂ P l l
  | [] => List.Forall₂.nil
  | t :: l => List.Forall₂.cons (h t) (forall2_self h l)

theorem forall2_map_of_mem {P : Ticket → Ticket → Prop} {l : List Ticket}
    {f : Ticket → Ticket} (h : ∀ t ∈ l, P t (f t)) :
    List.Forall₂ P l (l.map f) := by
  induction l with
  | nil => exact List.Forall₂.nil
  | cons a l ih =>
      exact List.Forall₂.cons (h a (List.mem_cons_self a l))
        (ih fun t ht => h t (List.mem_cons_of_mem a ht))

theorem statusRank_le_two (s : String) : statusRank s ≤ 2 := by
  unfold statusRank
  split
  · omega
  · split <;> omega

theorem statusRank_le_one_of_ne (s : String) (h : s ≠ "closed") :
    statusRank s ≤ 1 := by
  unfold statusRank
  split
  · exact absurd (by assumption) h
  · split
    · exact le_refl 1
    · exact Nat.zero_le 1

theorem eq_of_mem_of_id_eq {l : List Ticket}
    (hWF : l.Pairwise (fun a b => a.id ≠ b.id)) {u t : Ticket}
    (hu : u ∈ l) (ht : t ∈ l) (hid : u.id = t.id) : u = t := by
  induction l with
  | nil => cases hu
  | cons a l ih =>
      rcases List.pairwise_cons.mp hWF with ⟨ha, hl⟩
      rcases List.mem_cons.mp hu with rfl | hu'
      · rcases List.mem_cons.mp ht with rfl | ht'
        · rfl
        · exact absurd hid (ha t ht')
      · rcases List.mem_cons.mp ht with rfl | ht'
        · exact absurd hid.symm (ha u hu')
        · exact ih hl hu' ht'

/-! ## C7 -/

/-- C7 (refuting evaluation): the strip step is dead code — `base[:1]`
is a string of at most one character while every member of the glyph
tuple is a 3-4 character double-encoded sequence, so the membership test
never holds and `stripGlyph` is the identity on every name. Renaming an
already-prefixed channel therefore accumulates a second glyph prefix
instead of replacing the first: renaming the Low-prefixed channel
`âšª-bob` to Urgent yields `ðŸ”´-âšª-bob`, not the single-prefix name
the claim requires. -/
theorem C7_strip_is_dead_code_and_renames_accumulate :
    (∀ base, stripGlyph base = base) ∧
    (newChannelName (priority_emoji "Urgent")
        (newChannelName (priority_emoji "Low") ['b', 'o', 'b']) =
      glyphRed ++ '-' :: (glyphWhite ++ '-' :: ['b', 'o', 'b'])) ∧
    newChannelName (priority_emoji "Urgent")
        (newChannelName (priority_emoji "Low") ['b', 'o', 'b']) ≠
      newChannelName (priority_emoji "Urgent") ['b', 'o', 'b'] := by
  refine ⟨stripGlyph_eq_self, by decide, by decide⟩

/-! ## C9 -/

/-- C9: `reserve_open_ticket_number` mutates nothing — the store it
returns is the store it was given, its result is the guild's non-closed
count plus one, and a second consecutive call with no intervening write
returns the same number. -/
theorem C9_reserve_is_pure (db : DB) (g : Nat) :
    (reserve_open_ticket_number db g).2 = db ∧
    (reserve_open_ticket_number db g).1 = countOpenInGuild db g + 1 ∧
    (reserve_open_ticket_number (reserve_open_ticket_number db g).2 g).1 =
      (reserve_open_ticket_number db g).1 :=
  ⟨rfl, rfl, rfl⟩

/-! ## C2 -/

/-- C2 (refuting evaluation): with zero non-closed tickets in the guild,
the interleaving in which both in-flight creations run their number
reservation before either inserts its row — legal, since the per-guild
lock covers only the channel-creation step — assigns display number 1 to
both tickets, which are then simultaneously non-closed: the allocator
returns {1,1}, not {1,2}. -/
theorem C2_concurrent_creates_get_duplicate_numbers :
    ((runTwoCreates [false, true, false, false, true, true]
        { tickets := [], messages := [] }).tickets.map Ticket.ticket_number
      = [1, 1]) ∧
    ((runTwoCreates [false, true, false, false, true, true]
        { tickets := [], messages := [] }).tickets.map Ticket.status
      = ["open", "open"]) := by
  exact ⟨rfl, rfl⟩

/-! ## C6 -/

/-- C6 (refuting evaluation): the select-menu path is a pure no-op when
the requested priority equals the stored one case-insensitively, but the
`/admin set_ticket_priority` path never reaches its no-op check: its
query selects only `id, ticket_number, status, first_message_id`, so
reading `t["priority"]` raises `IndexError` on every invocation in a
ticket channel — including the repeated identical call the claim is
about. -/
theorem C6_admin_priority_raises_before_noop_check :
    (prioritySelectCallback exampleDB 100 7 false "Low" true true
        = (exampleDB, Resp.alreadyPriority "Low", [])) ∧
    (set_ticket_priority exampleDB 100 "Low" true true
        = Except.error (PyError.indexErrorNoItem "priority")) ∧
    (set_ticket_priority exampleDB 100 "Normal" true true
        = Except.error (PyError.indexErrorNoItem "priority")) := by
  refine ⟨by decide, rfl, rfl⟩

/-! ## C1 -/

/-- C1: for close confirmation and for a priority change, handlers only
ever write the store after a successful external edit (their event
traces satisfy `writesGated`); whenever the external edit fails or times
out (`editOk = false`), the store — hence the ticket's status,
closed_at, closer and priority fields — is returned exactly unchanged,
and whenever a failed edit was actually attempted the caller is answered
with the retry-later message. -/
theorem C1_store_write_gated_by_external_edit
    (db : DB) (staff : Bool) (ch user now actor : Nat)
    (istt istext : Bool) (pr : String) (editOk : Bool) :
    (editOk = false →
       (confirm_close db staff ch istt editOk now actor).1 = db ∧
       (prioritySelectCallback db ch user staff pr istext editOk).1 = db) ∧
    writesGated (confirm_close db staff ch istt editOk now actor).2.2 = true ∧
    writesGated (prioritySelectCallback db ch user staff pr istext editOk).2.2 = true ∧
    (Event.extEdit false ∈ (confirm_close db staff ch istt editOk now actor).2.2 →
       (confirm_close db staff ch istt editOk now actor).2.1 = Resp.retryLater ∧
       (confirm_close db staff ch istt editOk now actor).1 = db) ∧
    (Event.extEdit false ∈ (prioritySelectCallback db ch user staff pr istext editOk).2.2 →
       (prioritySelectCallback db ch user staff pr istext editOk).2.1 = Resp.retryLater ∧
       (prioritySelectCallback db ch user staff pr istext editOk).1 = db) := by
  cases hf : findTicketByChannel db ch <;>
    cases editOk <;> cases staff <;> cases istt <;> cases istext <;>
      simp only [confirm_close, prioritySelectCallback, hf] <;>
        split_ifs <;> simp_all [writesGated]

theorem C1_store_write_gated_by_external_edit_witness :
    (confirm_close exampleDB true 100 true false 999 42).1 = exampleDB ∧
    (prioritySelectCallback exampleDB 100 7 false "High" true false).2.1 =
      Resp.retryLater := by
  have h := C1_store_write_gated_by_external_edit
    exampleDB true 100 7 999 42 true true "High" false
  exact ⟨(h.1 rfl).1, (h.2.2.2.2 (by decide)).1⟩

/-! ## C5 -/

/-- C5: mark_solved rejects an actor who is not the ticket's opener and
leaves the store untouched; once the opener passes authorization on a
non-closed ticket, the pending_close store write is applied for both
outcomes of the best-effort external update — the write does not depend
on `editOk`. -/
theorem C5_mark_solved_opener_only_and_unconditional_write
    (db : DB) (ch user : Nat) (t : Ticket)
    (hfind : findTicketByChannel db ch = some t) :
    (t.opener_id ≠ user →
       ∀ editOk, mark_solved db ch user editOk = (db, Resp.notAllowed, [])) ∧
    (t.opener_id = user → t.status ≠ "closed" →
       ∀ editOk,
         (mark_solved db ch user editOk).1 =
           updateTicketById db t.id (fun u => { u with status := "pending_close" }) ∧
         (mark_solved db ch user editOk).2.1 = Resp.solvedOk) := by
  constructor
  · intro hne editOk
    simp [mark_solved, hfind, hne]
  · intro heq hnc editOk
    simp [mark_solved, hfind, heq, hnc]

theorem C5_mark_solved_opener_only_and_unconditional_write_witness :
    mark_solved exampleDB 100 8 true = (exampleDB, Resp.notAllowed, []) ∧
    ((mark_solved exampleDB 100 7 false).1 =
       updateTicketById exampleDB exampleTicket.id
         (fun u => { u with status := "pending_close" }) ∧
     (mark_solved exampleDB 100 7 false).2.1 = Resp.solvedOk) := by
  refine ⟨?_, ?_⟩
  · exact (C5_mark_solved_opener_only_and_unconditional_write
      exampleDB 100 8 exampleTicket (by decide)).1 (by decide) true
  · exact (C5_mark_solved_opener_only_and_unconditional_write
      exampleDB 100 7 exampleTicket (by decide)).2 rfl (by decide) false

/-! ## C4: per-operation status-machine lemmas -/

theorem mark_solved_statusStep (db : DB) (ch user : Nat) (editOk : Bool)
    (hWF : db.tickets.Pairwise (fun a b => a.id ≠ b.id)) :
    List.Forall₂ statusStep db.tickets (mark_solved db ch user editOk).1.tickets := by
  cases hf : findTicketByChannel db ch with
  | none =>
      simp only [mark_solved, hf]
      exact forall2_self statusStep_refl _
  | some t =>
      simp only [mark_solved, hf]
      split
      · exact forall2_self statusStep_refl _
      · split
        · exact forall2_self statusStep_refl _
        · rename_i hop hnc
          simp only [updateTicketById]
          apply forall2_map_of_mem
          intro u hu
          by_cases hid : (u.id == t.id) = true
          · have ht : t ∈ db.tickets := List.mem_of_find?_eq_some hf
            have hut : u = t := eq_of_mem_of_id_eq hWF hu ht (by simpa using hid)
            have hnc' : u.status ≠ "closed" := by
              rw [hut]; simpa using hnc
            simp only [hid, if_true]
            exact ⟨statusRank_le_one_of_ne _ hnc', fun h => absurd h hnc'⟩
          · simp only [hid]
            simpa using statusStep_refl u

theorem confirm_close_statusStep (db : DB) (staff : Bool) (ch : Nat)
    (istt editOk : Bool) (now actor : Nat) :
    List.Forall₂ statusStep db.tickets
      (confirm_close db staff ch istt editOk now actor).1.tickets := by
  cases hf : findTicketByChannel db ch with
  | none =>
      simp only [confirm_close, hf]
      split
      · exact forall2_self statusStep_refl _
      · exact forall2_self statusStep_refl _
  | some t =>
      simp only [confirm_close, hf]
      split
      · exact forall2_self statusStep_refl _
      · split
        · exact forall2_self statusStep_refl _
        · split
          · exact forall2_self statusStep_refl _
          · split
            · simp only [updateTicketById]
              apply forall2_map_of_mem
              intro u hu
              by_cases hid : (u.id == t.id) = true
              · simp only [hid, if_true]
                exact ⟨statusRank_le_two _, fun _ => rfl⟩
              · simp only [hid]
                simpa using statusStep_refl u
            · exact forall2_self statusStep_refl _

theorem prioritySelect_statusStep (db : DB) (ch user : Nat)
    (staff : Bool) (pr : String) (istext editOk : Bool) :
    List.Forall₂ statusStep db.tickets
      (prioritySelectCallback db ch user staff pr istext editOk).1.tickets := by
  cases hf : findTicketByChannel db ch with
  | none =>
      simp only [prioritySelectCallback, hf]
      exact forall2_self statusStep_refl _
  | some t =>
      simp only [prioritySelectCallback, hf]
      split
      · exact forall2_self statusStep_refl _
      · split
        · exact forall2_self statusStep_refl _
        · split
          · exact forall2_self statusStep_refl _
          · split
            · simp only [updateTicketById]
              apply forall2_map_of_mem
              intro u hu
              by_cases hid : (u.id == t.id) = true
              · simp only [hid, if_true]
                exact ⟨le_refl _, fun h => h⟩
              · simp only [hid]
                simpa using statusStep_refl u
            · exact forall2_self statusStep_refl _

theorem set_ticket_priority_statusStep (db : DB) (ch : Nat) (pr : String)
    (istext editOk : Bool) :
    List.Forall₂ statusStep db.tickets
      (adminResultDB db (set_ticket_priority db ch pr istext editOk)).tickets := by
  cases hf : findTicketByChannel db ch with
  | none =>
      simp only [set_ticket_priority, hf, adminResultDB]
      exact forall2_self statusStep_refl _
  | some t =>
      simp only [set_ticket_priority, hf, rowIndex, setTicketPriorityCols]
      norm_num [adminResultDB]
      exact forall2_self statusStep_refl _

theorem reconcile_statusStep (db : DB) (guild : Nat) (closeAll : Bool)
    (chanExists : Nat → Bool) (now : Nat) :
    List.Forall₂ statusStep db.tickets
      (reconcile_tickets db guild closeAll chanExists now).tickets := by
  apply forall2_map_of_mem
  intro u hu
  unfold reconcileTicket
  split_ifs <;>
    first
      | exact ⟨statusRank_le_two _, fun _ => rfl⟩
      | exact statusStep_refl u

/-- C4: across mark_solved, confirm_close, both priority-change paths
and reconcile, every ticket's stored status only ever moves forward
along OPEN → PENDING_CLOSE → CLOSED and a closed ticket stays closed
(`statusStep` row by row); moreover confirm_close invoked on an
already-closed ticket is a no-op that changes nothing and answers
"already closed". The hypothesis is the `tickets` primary-key
invariant: row ids are pairwise distinct. -/
theorem C4_status_monotone_closed_terminal
    (db : DB) (hWF : db.tickets.Pairwise (fun a b => a.id ≠ b.id))
    (ch user now actor guild : Nat) (staff istt istext editOk closeAll : Bool)
    (pr : String) (chanExists : Nat → Bool) :
    List.Forall₂ statusStep db.tickets (mark_solved db ch user editOk).1.tickets ∧
    List.Forall₂ statusStep db.tickets
      (confirm_close db staff ch istt editOk now actor).1.tickets ∧
    List.Forall₂ statusStep db.tickets
      (prioritySelectCallback db ch user staff pr istext editOk).1.tickets ∧
    List.Forall₂ statusStep db.tickets
      (adminResultDB db (set_ticket_priority db ch pr istext editOk)).tickets ∧
    List.Forall₂ statusStep db.tickets
      (reconcile_tickets db guild closeAll chanExists now).tickets ∧
    (∀ t, findTicketByChannel db ch = some t → t.status = "closed" →
       confirm_close db true ch istt editOk now actor = (db, Resp.alreadyClosed, [])) := by
  refine ⟨mark_solved_statusStep db ch user editOk hWF,
          confirm_close_statusStep db staff ch istt editOk now actor,
          prioritySelect_statusStep db ch user staff pr istext editOk,
          set_ticket_priority_statusStep db ch pr istext editOk,
          reconcile_statusStep db guild closeAll chanExists now, ?_⟩
  intro t hfind hclosed
  simp [confirm_close, hfind, hclosed]

theorem C4_status_monotone_closed_terminal_witness :
    confirm_close closedDB true 100 true true 999 42 =
      (closedDB, Resp.alreadyClosed, []) := by
  exact (C4_status_monotone_closed_terminal closedDB (by simp [closedDB]) 100 7 999 42 1
      true true true true true "High" (fun _ => true)).2.2.2.2.2
    closedTicket (by decide) (by decide)

/-! ## C3 -/

/-- C3: creation is all-or-nothing. When the external channel creation
fails (`createResult = none`, Discord rate limiting), the store is
byte-for-byte unchanged — in particular the ticket row count before the
attempt equals the count after — and every ticket row present afterwards
either predates the call or carries the reference of the successfully
created channel. The hypothesis is AUTOINCREMENT freshness of the new
row id. -/
theorem C3_creation_all_or_nothing
    (cfg : BotCfg) (st : BotState) (guild user category now : Nat)
    (content : String) (parentFull : Bool) (createResult : Option Nat)
    (freshId : Nat) (firstMsgId : Option Nat)
    (hfresh : ∀ u ∈ st.db.tickets, u.id ≠ freshId) :
    (createResult = none →
       (ticketModalOnSubmit cfg st guild user category now content parentFull
          createResult freshId firstMsgId).1.db = st.db) ∧
    (∀ t ∈ (ticketModalOnSubmit cfg st guild user category now content
        parentFull createResult freshId firstMsgId).1.db.tickets,
       t ∈ st.db.tickets ∨
         ∃ c, createResult = some c ∧ t.channel_id = some c) := by
  constructor
  · intro hnone
    subst hnone
    simp only [ticketModalOnSubmit]
    split
    · rfl
    · split
      · rfl
      · split
        · rfl
        · split
          · rfl
          · rfl
  · intro t ht
    revert ht
    simp only [ticketModalOnSubmit]
    split
    · exact fun ht => Or.inl ht
    · split
      · exact fun ht => Or.inl ht
      · split
        · exact fun ht => Or.inl ht
        · split
          · exact fun ht => Or.inl ht
          · cases hc : createResult with
            | none => exact fun ht => Or.inl ht
            | some c =>
                cases hm : firstMsgId with
                | none =>
                    intro ht
                    rcases List.mem_append.mp ht with h | h
                    · exact Or.inl h
                    · refine Or.inr ⟨c, rfl, ?_⟩
                      rcases List.mem_singleton.mp h with rfl
                      rfl
                | some m =>
                    intro ht
                    simp only [updateTicketById] at ht
                    rcases List.mem_map.mp ht with ⟨u, hu, rfl⟩
                    rcases List.mem_append.mp hu with h | h
                    · have : (u.id == freshId) = false := by
                        simpa using hfresh u h
                      simp only [this, if_false, Bool.false_eq_true]
                      exact Or.inl h
                    · rcases List.mem_singleton.mp h with rfl
                      refine Or.inr ⟨c, rfl, ?_⟩
                      simp

theorem C3_creation_all_or_nothing_witness :
    (ticketModalOnSubmit ⟨5, 60, 1⟩ ⟨exampleDB, [], []⟩ 1 8 3 2000 "hello"
        false none 2 none).1.db = exampleDB ∧
    ∀ t ∈ (ticketModalOnSubmit ⟨5, 60, 1⟩ ⟨exampleDB, [], []⟩ 1 8 3 2000
        "hello" false none 2 none).1.db.tickets,
      t ∈ exampleDB.tickets ∨ ∃ c, (none : Option Nat) = some c ∧
        t.channel_id = some c := by
  have h := C3_creation_all_or_nothing ⟨5, 60, 1⟩ ⟨exampleDB, [], []⟩ 1 8 3
    2000 "hello" false none 2 none (by decide)
  exact ⟨h.1 rfl, h.2⟩

/-! ## C8 -/

theorem gateGet_gateSet (m : GateMap) (k : Nat × Nat) (v : Nat) :
    gateGet (gateSet m k v) k = some v := by
  simp [gateGet, gateSet]

/-- C8: a creation request arriving while the (guild, user) gate holds a
registered expiry still in the future is answered "too fast" with the
whole process state — store included — unchanged, so no ticket is
created; and whenever the gate allows a request (with the gate enabled),
the gate is immediately re-armed to `now + window` no matter how the
rest of the pipeline ends. -/
theorem C8_gate_denies_future_expiry_and_rearms_on_allow
    (cfg : BotCfg) (st : BotState) (guild user category now : Nat)
    (content : String) (parentFull : Bool) (createResult : Option Nat)
    (freshId : Nat) (firstMsgId : Option Nat) :
    (gateDenies cfg st.gates (guild, user) now = true →
       ticketModalOnSubmit cfg st guild user category now content parentFull
         createResult freshId firstMsgId = (st, Resp.tooFast)) ∧
    (gateDenies cfg st.gates (guild, user) now = false → 0 < cfg.gateSeconds →
       gateGet (ticketModalOnSubmit cfg st guild user category now content
           parentFull createResult freshId firstMsgId).1.gates (guild, user) =
         some (now + cfg.gateSeconds)) := by
  constructor
  · intro hdeny
    simp [ticketModalOnSubmit, hdeny]
  · intro hallow hpos
    simp only [ticketModalOnSubmit, hallow, Bool.false_eq_true, if_false,
      hpos, if_true]
    split
    · exact gateGet_gateSet st.gates (guild, user) (now + cfg.gateSeconds)
    · split
      · exact gateGet_gateSet st.gates (guild, user) (now + cfg.gateSeconds)
      · split
        · exact gateGet_gateSet st.gates (guild, user) (now + cfg.gateSeconds)
        · cases createResult with
          | none => exact gateGet_gateSet st.gates (guild, user) (now + cfg.gateSeconds)
          | some c =>
              exact gateGet_gateSet st.gates (guild, user) (now + cfg.gateSeconds)

theorem C8_gate_denies_future_expiry_and_rearms_on_allow_witness :
    (ticketModalOnSubmit ⟨5, 60, 1⟩ ⟨exampleDB, [((1, 8), 2003)], []⟩ 1 8 3
        2000 "hello" false none 2 none = (⟨exampleDB, [((1, 8), 2003)], []⟩,
          Resp.tooFast)) ∧
    gateGet (ticketModalOnSubmit ⟨5, 60, 1⟩ ⟨exampleDB, [], []⟩ 1 8 3 2000
        "hello" false none 2 none).1.gates (1, 8) = some 2005 := by
  have h1 := C8_gate_denies_future_expiry_and_rearms_on_allow ⟨5, 60, 1⟩
    ⟨exampleDB, [((1, 8), 2003)], []⟩ 1 8 3 2000 "hello" false none 2 none
  have h2 := C8_gate_denies_future_expiry_and_rearms_on_allow ⟨5, 60, 1⟩
    ⟨exampleDB, [], []⟩ 1 8 3 2000 "hello" false none 2 none
  exact ⟨h1.1 (by decide), h2.2 (by decide) (by decide)⟩

/-! ## C10 -/

/-- C10: the message logger appends a row exactly when a non-bot guild
message lands in the channel of a ticket whose stored status is not
closed; bot messages, DMs, channels with no ticket row and channels of
closed tickets leave the store unchanged. -/
theorem C10_logger_appends_only_for_open_tickets
    (db : DB) (isBot inGuild : Bool) (ch msg author : Nat)
    (content : String) (now : Nat) :
    (isBot = true → on_message db isBot inGuild ch msg author content now = db) ∧
    (inGuild = false → on_message db isBot inGuild ch msg author content now = db) ∧
    (findTicketByChannel db ch = none →
       on_message db isBot inGuild ch msg author content now = db) ∧
    (∀ t, findTicketByChannel db ch = some t → t.status = "closed" →
       on_message db isBot inGuild ch msg author content now = db) ∧
    (∀ t, findTicketByChannel db ch = some t → t.status ≠ "closed" →
       isBot = false → inGuild = true →
       on_message db isBot inGuild ch msg author content now =
         { db with messages := db.messages ++
             [{ ticket_id := t.id, discord_message_id := some msg,
                author_id := author, content := content, created_at := now }] }) := by
  refine ⟨?_, ?_, ?_, ?_, ?_⟩
  · intro h
    simp [on_message, h]
  · intro h
    cases isBot <;> simp [on_message, h]
  · intro h
    cases isBot <;> cases inGuild <;> simp [on_message, h]
  · intro t hf hcl
    cases isBot <;> cases inGuild <;> simp [on_message, hf, hcl]
  · intro t hf hop hbot hguild
    subst hbot
    subst hguild
    simp [on_message, hf, hop]

theorem C10_logger_appends_only_for_open_tickets_witness :
    on_message closedDB false true 100 777 8 "hi" 3000 = closedDB ∧
    on_message exampleDB false true 100 777 8 "hi" 3000 =
      { exampleDB with messages := exampleDB.messages ++
          [{ ticket_id := exampleTicket.id, discord_message_id := some 777,
             author_id := 8, content := "hi", created_at := 3000 }] } := by
  refine ⟨?_, ?_⟩
  · exact (C10_logger_appends_only_for_open_tickets closedDB false true 100
      777 8 "hi" 3000).2.2.2.1 closedTicket (by decide) (by decide)
  · exact (C10_logger_appends_only_for_open_tickets exampleDB false true 100
      777 8 "hi" 3000).2.2.2.2 exampleTicket (by decide) (by decide) rfl rfl

end Ticketee
